import Mathlib

/-!
Verification of the Borrow & Fine Lifecycle Engine of the WDU library
management application.

Timestamps are modelled as integers (milliseconds since the epoch, as
JavaScript `Date` arithmetic yields).  Currency amounts are integers.
Mongo collections are modelled as lists; `findOne` returns the first
matching element and `updateOne` rewrites the first matching element.
All definitions are translated directly from the JavaScript source
(`models/paymentModel.js`, `models/bookModel.js`,
`backend/src/models/authModel.js`, and the frontend `RequestForm`).
-/

namespace Library

/-- Milliseconds per day: `1000 * 60 * 60 * 24` in the source. -/
def msPerDay : Int := 86400000

/-- `Math.ceil (a / b)` for integer `a` and positive integer `b`:
the ceiling of the exact rational quotient. -/
def ceilDiv (a b : Int) : Int := -((-a) / b)

/-- `BorrowModel.calculateFine(dueDate, userType = 'student')` from
`backend/src/models/authModel.js`.  `msDiff ≤ 0` returns 0; otherwise
`daysLate = ceil(msDiff / 86_400_000)`; teachers get a 2-day grace,
students a 1-day grace, and every other user type pays `daysLate * 10`
with no grace ("Other user types: immediate fine" in the source). -/
def calculateFine (dueDate now : Int) (userType : String) : Int :=
  let msDiff := now - dueDate
  if msDiff ≤ 0 then 0
  else
    let daysLate := ceilDiv msDiff msPerDay
    if userType = "teacher" then max 0 (daysLate - 2) * 10
    else if userType = "student" then max 0 (daysLate - 1) * 10
    else daysLate * 10

/-- `PaymentModel.calculateFine(dueDate)` from `models/paymentModel.js`:
`daysLate = Math.max(0, Math.ceil(msDiff / 86_400_000))`, fine
`daysLate * 10`.  It takes no role and applies no grace period. -/
def paymentCalculateFine (dueDate now : Int) : Int :=
  let msDiff := now - dueDate
  max 0 (ceilDiv msDiff msPerDay) * 10

/-- The role-aware fine as the specification states it for roles other
than teacher and student: the student formula `max(0, daysLate − 1) × 10`. -/
def specOtherRoleFine (dueDate now : Int) : Int :=
  let msDiff := now - dueDate
  if msDiff ≤ 0 then 0
  else max 0 (ceilDiv msDiff msPerDay - 1) * 10

/-- A document of the `borrows` collection (`BorrowModel.createRequest`
initialises the fields; `updatedAt` only appears once a payment path
touches the record). -/
structure Borrow where
  id : Nat
  userId : String
  username : String
  bookId : String
  bookName : String
  userType : String
  dueDate : Int
  requestedAt : Int
  borrowedAt : Option Int
  returnedAt : Option Int
  approvedBy : Option String
  approvedAt : Option Int
  rejectionReason : Option String
  fine : Int
  status : String
  updatedAt : Option Int
  deriving DecidableEq

/-- A document of the `books` collection (only the fields the engine
touches). -/
structure Book where
  id : String
  copies : Int
  updatedAt : Int
  deriving DecidableEq

/-- A document of the `payments` collection. -/
structure Payment where
  id : Nat
  userId : String
  username : String
  amount : Int
  borrowId : Nat
  mobile : Option String
  tx_ref : String
  method : String
  status : String
  createdAt : Int
  updatedAt : Int
  deriving DecidableEq

/-- The three collections the engine touches.  `findOne` is modelled as
`List.find?` (first match) and `updateOne` as rewriting the first match. -/
structure DB where
  borrows : List Borrow
  books : List Book
  payments : List Payment
  deriving DecidableEq

/-- Mongo `updateOne` result.  Every update in the modelled paths either
sets a fresh timestamp or makes a real state change, so
`modifiedCount = matchedCount`. -/
structure UpdateResult where
  matchedCount : Nat
  modifiedCount : Nat
  deriving DecidableEq

/-- Rewrite the first element satisfying `p` (Mongo `updateOne`). -/
def updateFirst (p : α → Bool) (f : α → α) : List α → List α
  | [] => []
  | x :: xs => if p x then f x :: xs else x :: updateFirst p f xs

/-- The copies counter of a book, when the book exists. -/
def bookCopies (db : DB) (bookId : String) : Option Int :=
  (db.books.find? (fun bk => bk.id == bookId)).map (·.copies)

/-- `BookModel.updateCopies(bookId, changeAmount)`: `updateOne({id},
{$inc: {copies: changeAmount}, $set: {updatedAt: now}})`.  The filter is
the book id only — there is no `copies > 0` condition. -/
def updateCopies (db : DB) (bookId : String) (changeAmount : Int) (now : Int) :
    DB × UpdateResult :=
  let matched := if db.books.any (fun bk => bk.id == bookId) then 1 else 0
  let books' := updateFirst (fun bk => bk.id == bookId)
    (fun bk => { bk with copies := bk.copies + changeAmount, updatedAt := now })
    db.books
  ({ db with books := books' }, { matchedCount := matched, modifiedCount := matched })

/-- `BookModel.hasAvailableCopies(bookId)`: a plain read
(`findOne` then `copies > 0`), separate from any update. -/
def hasAvailableCopies (db : DB) (bookId : String) : Bool :=
  match db.books.find? (fun bk => bk.id == bookId) with
  | none => false
  | some bk => decide (0 < bk.copies)

/-- The `$inc`-only book update performed inside the payment paths
(`updateOne({id}, {$inc: {copies: 1}})`, no `updatedAt`). -/
def incCopies (db : DB) (bookId : String) (delta : Int) : DB × UpdateResult :=
  let matched := if db.books.any (fun bk => bk.id == bookId) then 1 else 0
  let books' := updateFirst (fun bk => bk.id == bookId)
    (fun bk => { bk with copies := bk.copies + delta }) db.books
  ({ db with books := books' }, { matchedCount := matched, modifiedCount := matched })

/-- The request payload (`borrowData`) spread into `createRequest` /
`createDirectBorrow`; the frontend `RequestForm` sends
`userId, username, bookId, bookName, dueDate` (plus the user type added
server-side). -/
structure BorrowData where
  userId : String
  username : String
  bookId : String
  bookName : String
  userType : String
  dueDate : Int
  deriving DecidableEq

/-- The default due date the frontend `RequestForm.handleChange` fills
in when a book id or name is first typed: `now + 7 * 24 * 60 * 60 * 1000`
milliseconds.  (The form renders it at minute precision and the field
stays user-editable, with a minimum of `now + 1 day`.) -/
def defaultDueDate (now : Int) : Int := now + 7 * msPerDay

/-- `BorrowModel.createRequest(borrowData)`: inserts a new document with
`status = 'pending'`, `fine = 0`, null lifecycle fields, and whatever
`dueDate` the request supplied. -/
def createRequest (db : DB) (d : BorrowData) (now : Int) (newId : Nat) : DB × Borrow :=
  let b : Borrow :=
    { id := newId, userId := d.userId, username := d.username, bookId := d.bookId,
      bookName := d.bookName, userType := d.userType, dueDate := d.dueDate,
      requestedAt := now, borrowedAt := none, returnedAt := none,
      approvedBy := none, approvedAt := none, rejectionReason := none,
      fine := 0, status := "pending", updatedAt := none }
  ({ db with borrows := db.borrows ++ [b] }, b)

/-- `BorrowModel.findPendingById(borrowId)`: a read filtered on
`{_id, status: 'pending'}`. -/
def findPendingById (db : DB) (borrowId : Nat) : Option Borrow :=
  db.borrows.find? (fun b => b.id == borrowId && b.status == "pending")

/-- `BorrowModel.approveRequest(borrowId, approvedById)`:
`updateOne({_id}, {$set: {status: 'borrowed', approvedBy, approvedAt: now,
borrowedAt: now}})`.  The filter is the id alone — no status condition —
and the `$set` does not touch `dueDate`. -/
def approveRequest (db : DB) (borrowId : Nat) (approvedById : String) (now : Int) :
    DB × UpdateResult :=
  let matched := if db.borrows.any (fun b => b.id == borrowId) then 1 else 0
  let borrows' := updateFirst (fun b => b.id == borrowId)
    (fun b => { b with
        status := "borrowed", approvedBy := some approvedById,
        approvedAt := some now, borrowedAt := some now }) db.borrows
  ({ db with borrows := borrows' }, { matchedCount := matched, modifiedCount := matched })

/-- The record returned by `BorrowModel.returnBook`. -/
structure ReturnResult where
  success : Bool
  fine : Int
  daysLate : Int
  gracePeriod : Int
  deriving DecidableEq

/-- `BorrowModel.returnBook(userId, bookId)`: finds the borrowed,
unreturned loan for the pair, computes the fine at `now`, and
unconditionally closes the loan with `returnedAt = now`,
`fine = computed value`, `status = 'returned'`.  `daysLate` in the
result is `Math.ceil((now - dueDate) / day)` with no floor. -/
def returnBook (db : DB) (userId bookId : String) (now : Int) :
    DB × Option ReturnResult :=
  match db.borrows.find? (fun b => b.userId == userId && b.bookId == bookId
      && b.status == "borrowed" && b.returnedAt.isNone) with
  | none => (db, none)
  | some borrow =>
    let fine := calculateFine borrow.dueDate now borrow.userType
    let borrows' := updateFirst (fun b => b.id == borrow.id)
      (fun b => { b with
          returnedAt := some now, fine := fine, status := "returned" }) db.borrows
    ({ db with borrows := borrows' },
     some { success := true, fine := fine,
                 daysLate := ceilDiv (now - borrow.dueDate) msPerDay,
                 gracePeriod := if borrow.userType == "teacher" then 2 else 1 })

/-- `PaymentModel.getFine(userId, username)`: `none` models the thrown
`'userId & username required'`; otherwise the first unreturned borrow of
the user is quoted with the role-less `PaymentModel.calculateFine`. -/
def paymentGetFine (db : DB) (userId username : String) (now : Int) :
    Option (Int × Option Nat) :=
  if userId = "" ∨ username = "" then none
  else
    match db.borrows.find? (fun b => b.userId == userId && b.username == username
        && b.returnedAt.isNone) with
    | none => some (0, none)
    | some borrow => some (paymentCalculateFine borrow.dueDate now, some borrow.id)

/-- The record returned by `PaymentModel.verifyPayment`. -/
structure VerifyResult where
  paymentStatus : String
  borrowUpdated : Bool
  bookUpdated : Bool
  deriving DecidableEq

/-- `PaymentModel.verifyPayment(tx_ref, status)` (the webhook handler).
The payment `findOneAndUpdate` is keyed on `tx_ref` alone (no status
condition); on `'success'` the borrow `findOneAndUpdate` is keyed on
`_id` alone and the book update is an unconditional `$inc` of `copies`.
`none` models the thrown `'tx_ref missing'` / `'Payment not found'`. -/
def verifyPayment (db : DB) (txRef : String) (status : String) (now : Int) :
    DB × Option VerifyResult :=
  if txRef = "" then (db, none)
  else
    match db.payments.find? (fun p => p.tx_ref == txRef) with
    | none => (db, none)
    | some p =>
      let newStatus := if status == "success" then "completed" else "failed"
      let payments1 := updateFirst (fun q => q.tx_ref == txRef)
        (fun q => { q with status := newStatus, updatedAt := now }) db.payments
      let db1 := { db with payments := payments1 }
      if status == "success" then
        match db1.borrows.find? (fun b => b.id == p.borrowId) with
        | none => (db1, some { paymentStatus := newStatus,
                               borrowUpdated := false, bookUpdated := false })
        | some borrow =>
          let borrows2 := updateFirst (fun b => b.id == p.borrowId)
            (fun b => { b with
                fine := 0, returnedAt := some now,
                status := "returned", updatedAt := some now }) db1.borrows
          let db2 := { db1 with borrows := borrows2 }
          let step := incCopies db2 borrow.bookId 1
          (step.1, some { paymentStatus := newStatus, borrowUpdated := true,
                          bookUpdated := decide (0 < step.2.modifiedCount) })
      else (db1, some { paymentStatus := newStatus,
                        borrowUpdated := false, bookUpdated := false })

/-- The mobile pattern `/^09\d{8}$/` of `initTelebirrPayment`: exactly
ten digits starting with `09`. -/
def mobileValid (m : String) : Bool :=
  m.toList.length == 10 && m.toList.take 2 == [('0'), ('9')]
    && m.toList.all Char.isDigit

/-- The record returned by a successful `initTelebirrPayment`. -/
structure TelebirrResult where
  payment : Payment
  borrow : Borrow
  bookUpdated : Bool
  deriving DecidableEq

/-- `PaymentModel.initTelebirrPayment(userId, username, amount, borrowId,
mobile)`: validates the inputs, then inserts a Payment **already in
`'completed'` status**, then updates the borrow keyed on
`{_id, userId}`, then `$inc`s the book copies.  A missing borrow throws
after the insert, so the inserted payment row persists; the returned
`DB` is the state left behind in every case. -/
def initTelebirrPayment (db : DB) (userId username : String) (amount : Int)
    (borrowId : Nat) (mobile : String) (now : Int) (txRef : String)
    (newPayId : Nat) : DB × Except String TelebirrResult :=
  if amount ≤ 0 then (db, .error ("All fields required"))
  else if ¬ mobileValid mobile then (db, .error ("Invalid mobile (09.......)"))
  else
    let payment : Payment :=
      { id := newPayId, userId := userId, username := username, amount := amount,
        borrowId := borrowId, mobile := some mobile, tx_ref := txRef,
        method := "telebirr", status := "completed", createdAt := now,
        updatedAt := now }
    let db1 := { db with payments := db.payments ++ [payment] }
    match db1.borrows.find? (fun b => b.id == borrowId && b.userId == userId) with
    | none => (db1, .error ("Borrow record not found"))
    | some borrow =>
      let borrows2 := updateFirst (fun b => b.id == borrowId && b.userId == userId)
        (fun b => { b with
            fine := 0, returnedAt := some now,
            status := "returned", updatedAt := some now }) db1.borrows
      let db2 := { db1 with borrows := borrows2 }
      let step := incCopies db2 borrow.bookId 1
      let borrow' : Borrow := { borrow with
        fine := 0, returnedAt := some now,
        status := "returned", updatedAt := some now }
      (step.1, .ok { payment := payment, borrow := borrow',
                     bookUpdated := decide (0 < step.2.modifiedCount) })

/-- A one-book catalog entry used in the concrete scenarios. -/
def sampleBook (c : Int) : Book := { id := "B1", copies := c, updatedAt := 0 }

/-- A loan record for user `u1` on book `B1`, parameterised by due date,
role and status, as `createRequest`/`approveRequest` would have left it. -/
def sampleBorrow (dueDate : Int) (userType status : String) : Borrow :=
  { id := 1, userId := "u1", username := "alice", bookId := "B1",
    bookName := "Algebra", userType := userType, dueDate := dueDate,
    requestedAt := dueDate - 7 * msPerDay,
    borrowedAt := some (dueDate - 7 * msPerDay), returnedAt := none,
    approvedBy := some ("lib1"), approvedAt := some (dueDate - 7 * msPerDay),
    rejectionReason := none, fine := 0, status := status, updatedAt := none }

/-- A pending provider-redirect payment for that loan. -/
def samplePayment : Payment :=
  { id := 1, userId := "u1", username := "alice", amount := 10, borrowId := 1,
    mobile := none, tx_ref := "t1", method := "chapa", status := "pending",
    createdAt := 0, updatedAt := 0 }

/-- State with one loan, one book with `c` copies and one pending payment. -/
def sampleDB (c dueDate : Int) (userType status : String) : DB :=
  { borrows := [sampleBorrow dueDate userType status],
    books := [sampleBook c], payments := [samplePayment] }

/-- State with one book and no loans and no payments. -/
def dbNoBorrow (c : Int) : DB :=
  { borrows := [], books := [sampleBook c], payments := [] }

/-- A borrow request as the frontend form submits it, with the default
due date computed at request time 0. -/
def reqData : BorrowData :=
  { userId := "u1", username := "alice", bookId := "B1", bookName := "Algebra",
    userType := "student", dueDate := defaultDueDate 0 }

theorem ceilDiv_nonpos_of_nonpos {a : Int} (h : a ≤ 0) : ceilDiv a msPerDay ≤ 0 := by
  unfold ceilDiv msPerDay
  omega

theorem ceilDiv_pos_of_pos {a : Int} (h : 0 < a) : 1 ≤ ceilDiv a msPerDay := by
  unfold ceilDiv msPerDay
  omega

theorem ceilDiv_le_neg_one {a : Int} (h : a ≤ -msPerDay) : ceilDiv a msPerDay ≤ -1 := by
  unfold ceilDiv msPerDay at *
  omega

theorem ceilDiv_msPerDay_mul (k : Int) : ceilDiv (k * msPerDay) msPerDay = k := by
  unfold ceilDiv msPerDay
  omega

theorem calculateFine_early (dueDate now : Int) (userType : String) (h : now ≤ dueDate) :
    calculateFine dueDate now userType = 0 := by
  unfold calculateFine
  dsimp only
  rw [if_pos (by omega)]

theorem calculateFine_teacher (dueDate now : Int) (h : dueDate < now) :
    calculateFine dueDate now "teacher"
      = max 0 (ceilDiv (now - dueDate) msPerDay - 2) * 10 := by
  unfold calculateFine
  dsimp only
  rw [if_neg (by omega), if_pos rfl]

theorem calculateFine_student (dueDate now : Int) (h : dueDate < now) :
    calculateFine dueDate now "student"
      = max 0 (ceilDiv (now - dueDate) msPerDay - 1) * 10 := by
  unfold calculateFine
  dsimp only
  rw [if_neg (by omega), if_neg (by decide), if_pos rfl]

theorem calculateFine_other (dueDate now : Int) (userType : String)
    (ht : userType ≠ "teacher") (hs : userType ≠ "student") (h : dueDate < now) :
    calculateFine dueDate now userType = ceilDiv (now - dueDate) msPerDay * 10 := by
  unfold calculateFine
  dsimp only
  rw [if_neg (by omega), if_neg ht, if_neg hs]

theorem calculateFine_nonneg (dueDate now : Int) (userType : String) :
    0 ≤ calculateFine dueDate now userType := by
  unfold calculateFine
  dsimp only
  split_ifs with h h1 h2
  · exact le_refl (0 : Int)
  · have := le_max_left (0 : Int) (ceilDiv (now - dueDate) msPerDay - 2)
    omega
  · have := le_max_left (0 : Int) (ceilDiv (now - dueDate) msPerDay - 1)
    omega
  · have := ceilDiv_pos_of_pos (a := now - dueDate) (by omega)
    omega

theorem paymentCalculateFine_early (dueDate now : Int) (h : now ≤ dueDate) :
    paymentCalculateFine dueDate now = 0 := by
  unfold paymentCalculateFine
  dsimp only
  rw [max_eq_left (ceilDiv_nonpos_of_nonpos (by omega))]
  ring

theorem paymentCalculateFine_late (dueDate now : Int) (h : dueDate < now) :
    paymentCalculateFine dueDate now = ceilDiv (now - dueDate) msPerDay * 10 := by
  unfold paymentCalculateFine
  dsimp only
  rw [max_eq_right (le_trans (by omega) (ceilDiv_pos_of_pos (by omega)))]

theorem map_updateFirst {p : α → Bool} {f : α → α} {g : α → β}
    (hg : ∀ x, g (f x) = g x) (l : List α) :
    (updateFirst p f l).map g = l.map g := by
  induction l with
  | nil => rfl
  | cons x xs ih =>
    unfold updateFirst
    by_cases hx : p x
    · simp [hx, hg]
    · simp [hx, ih]

theorem any_updateFirst {p q : α → Bool} {f : α → α}
    (hq : ∀ x, q (f x) = q x) (l : List α) :
    (updateFirst p f l).any q = l.any q := by
  induction l with
  | nil => rfl
  | cons x xs ih =>
    unfold updateFirst
    by_cases hx : p x
    · simp [hx, hq]
    · simp [hx, ih]

/-- C2: for every due date and every now, the fine is non-negative; it is
0 when `now ≤ dueDate`; otherwise, with `daysLate = ceil((now − dueDate) /
86_400_000)`, a teacher owes `max(0, daysLate − 2) × 10` and a student owes
`max(0, daysLate − 1) × 10`; in particular a teacher 2 days late owes 0 and
3 days late owes 10, and a student 1 day late owes 0 and 2 days late owes 10. -/
theorem fine_formula_teacher_student (due now : Int) :
    (0 ≤ calculateFine due now ("teacher") ∧ 0 ≤ calculateFine due now ("student")) ∧
    (now ≤ due → calculateFine due now ("teacher") = 0 ∧
      calculateFine due now ("student") = 0) ∧
    (due < now →
      calculateFine due now ("teacher") = max 0 (ceilDiv (now - due) msPerDay - 2) * 10 ∧
      calculateFine due now ("student") = max 0 (ceilDiv (now - due) msPerDay - 1) * 10) ∧
    calculateFine due (due + 2 * msPerDay) ("teacher") = 0 ∧
    calculateFine due (due + 3 * msPerDay) ("teacher") = 10 ∧
    calculateFine due (due + 1 * msPerDay) ("student") = 0 ∧
    calculateFine due (due + 2 * msPerDay) ("student") = 10 := by
  have hday : (0 : Int) < msPerDay := by unfold msPerDay; omega
  refine ⟨⟨calculateFine_nonneg due now _, calculateFine_nonneg due now _⟩,
    fun h => ⟨calculateFine_early due now _ h, calculateFine_early due now _ h⟩,
    fun h => ⟨calculateFine_teacher due now h, calculateFine_student due now h⟩,
    ?_, ?_, ?_, ?_⟩
  · rw [calculateFine_teacher due _ (by omega),
      show due + 2 * msPerDay - due = 2 * msPerDay by ring, ceilDiv_msPerDay_mul]
    decide
  · rw [calculateFine_teacher due _ (by omega),
      show due + 3 * msPerDay - due = 3 * msPerDay by ring, ceilDiv_msPerDay_mul]
    decide
  · rw [calculateFine_student due _ (by omega),
      show due + 1 * msPerDay - due = 1 * msPerDay by ring, ceilDiv_msPerDay_mul]
    decide
  · rw [calculateFine_student due _ (by omega),
      show due + 2 * msPerDay - due = 2 * msPerDay by ring, ceilDiv_msPerDay_mul]
    decide

/-- Witness for C2: the not-yet-overdue branch evaluated at a concrete
input. -/
theorem fine_formula_teacher_student_witness :
    calculateFine 10 5 ("student") = 0 :=
  ((fine_formula_teacher_student 10 5).2.1 (by omega)).2

/-- C3 counterexample: a librarian who is one day past due owes 10 under
the code, while the claimed student-like 1-day grace would give 0. -/
theorem other_role_grace_counterexample :
    calculateFine 0 msPerDay ("librarian") = 10 ∧
    specOtherRoleFine 0 msPerDay = 0 ∧
    calculateFine 0 msPerDay ("librarian") ≠ specOtherRoleFine 0 msPerDay := by
  decide

/-- C3 amended: roles other than teacher and student receive no grace
period at all: once past due they owe `daysLate × 10`, which is already
at least 10 on the first late day. -/
theorem other_role_no_grace (due now : Int) (userType : String)
    (ht : userType ≠ "teacher") (hs : userType ≠ "student") (h : due < now) :
    calculateFine due now userType = ceilDiv (now - due) msPerDay * 10 ∧
    10 ≤ calculateFine due now userType := by
  have he := calculateFine_other due now userType ht hs h
  have hd := ceilDiv_pos_of_pos (a := now - due) (by omega)
  exact ⟨he, by rw [he]; omega⟩

/-- Witness for C3 amended: a librarian one day late. -/
theorem other_role_no_grace_witness :
    calculateFine 0 msPerDay ("librarian") = ceilDiv msPerDay msPerDay * 10 ∧
    10 ≤ calculateFine 0 msPerDay ("librarian") := by
  have h := other_role_no_grace 0 msPerDay ("librarian")
    (by decide) (by decide) (by decide)
  simpa using h

/-- C4 counterexample: for a student one day past due, the payment-side
quote (`PaymentModel.getFine`) reports 10 while the role-aware
`BorrowModel.calculateFine` reports 0 for the same loan and instant. -/
theorem getFine_role_mismatch_counterexample :
    paymentGetFine (sampleDB 3 0 ("student") ("borrowed")) ("u1") ("alice") msPerDay
      = some (10, some 1) ∧
    calculateFine 0 msPerDay ("student") = 0 ∧ (10 : Int) ≠ 0 := by
  decide

/-- C4 amended: the payment-side quote ignores the borrower's role.  It
coincides with the role-aware calculator exactly for roles other than
teacher and student, and in general it only over-quotes: for every role
the role-aware fine is at most the payment-side fine. -/
theorem paymentFine_vs_roleFine (due now : Int) (userType : String)
    (ht : userType ≠ "teacher") (hs : userType ≠ "student") :
    paymentCalculateFine due now = calculateFine due now userType ∧
    ∀ role : String, calculateFine due now role ≤ paymentCalculateFine due now := by
  constructor
  · by_cases h : now ≤ due
    · rw [paymentCalculateFine_early due now h, calculateFine_early due now _ h]
    · rw [paymentCalculateFine_late due now (by omega),
        calculateFine_other due now userType ht hs (by omega)]
  · intro role
    by_cases h : now ≤ due
    · rw [paymentCalculateFine_early due now h, calculateFine_early due now _ h]
    · rw [paymentCalculateFine_late due now (by omega)]
      have hd := ceilDiv_pos_of_pos (a := now - due) (by omega)
      by_cases hr : role = "teacher"
      · subst hr
        rw [calculateFine_teacher due now (by omega)]
        omega
      · by_cases hst : role = "student"
        · subst hst
          rw [calculateFine_student due now (by omega)]
          omega
        · rw [calculateFine_other due now role hr hst (by omega)]

/-- Witness for C4 amended: evaluated for a librarian five ms past due. -/
theorem paymentFine_vs_roleFine_witness :
    paymentCalculateFine 0 5 = calculateFine 0 5 ("librarian") ∧
    calculateFine 0 5 ("teacher") ≤ paymentCalculateFine 0 5 :=
  have h := paymentFine_vs_roleFine 0 5 ("librarian") (by decide) (by decide)
  ⟨h.1, h.2 ("teacher")⟩

/-- C1 counterexample: replaying `verifyPayment` with the same success
payload starting from one pending payment, one borrowed loan and a book
with 0 copies leaves the book with 2 copies — inventory changed by +2,
not the claimed +1. -/
theorem verify_replay_counterexample :
    bookCopies ((verifyPayment ((verifyPayment (sampleDB 0 0 ("student") ("borrowed"))
        ("t1") ("success") 5).1) ("t1") ("success") 6).1) ("B1") = some 2 ∧
    (2 : Int) ≠ 0 + 1 := by
  decide

/-- C1 amended: `verifyPayment` is not idempotent.  Its payment update is
keyed on `tx_ref` alone with no pending-status condition, so the second
call with the same success payload again reports the loan updated and
again increments the book: from any initial copy count `c` the two calls
leave `c + 2` copies. -/
theorem verify_replay_double_increment (c n1 n2 : Int) :
    bookCopies ((verifyPayment ((verifyPayment (sampleDB c 0 ("student") ("borrowed"))
        ("t1") ("success") n1).1) ("t1") ("success") n2).1) ("B1") = some (c + 2) ∧
    (verifyPayment ((verifyPayment (sampleDB c 0 ("student") ("borrowed"))
        ("t1") ("success") n1).1) ("t1") ("success") n2).2
      = some { paymentStatus := "completed", borrowUpdated := true,
               bookUpdated := true } := by
  constructor
  · simp +decide [verifyPayment, incCopies, updateFirst, sampleDB, samplePayment,
      sampleBorrow, sampleBook, bookCopies, List.find?, List.any]
    omega
  · simp +decide [verifyPayment, incCopies, updateFirst, sampleDB, samplePayment,
      sampleBorrow, sampleBook, List.find?, List.any]

/-- C5 counterexample: a telebirr settlement against a borrow id that
does not exist fails, yet leaves behind a Payment row already in
`completed` status — the state is not what it was before the call. -/
theorem telebirr_orphan_counterexample :
    (initTelebirrPayment (dbNoBorrow 0) ("u1") ("alice") 10 1 ("0912345678")
        5 ("tx1") 1).2 = .error ("Borrow record not found") ∧
    ((initTelebirrPayment (dbNoBorrow 0) ("u1") ("alice") 10 1 ("0912345678")
        5 ("tx1") 1).1.payments.map (·.status)) = [("completed")] ∧
    (initTelebirrPayment (dbNoBorrow 0) ("u1") ("alice") 10 1 ("0912345678")
        5 ("tx1") 1).1 ≠ dbNoBorrow 0 := by
  refine ⟨rfl, rfl, by decide⟩

/-- C5 amended: a settlement attempt rejected by the input validation
leaves all three collections untouched, but one that fails because the
borrow record does not exist has already inserted the Payment row in
`completed` status: loans and books are unchanged while the payments
collection keeps the orphaned completed row. -/
theorem telebirr_failure_states (db : DB) (userId username : String) (amount : Int)
    (borrowId : Nat) (mobile : String) (now : Int) (txRef : String) (newPayId : Nat) :
    (amount ≤ 0 →
      initTelebirrPayment db userId username amount borrowId mobile now txRef newPayId
        = (db, .error ("All fields required"))) ∧
    (0 < amount → mobileValid mobile = false →
      initTelebirrPayment db userId username amount borrowId mobile now txRef newPayId
        = (db, .error ("Invalid mobile (09.......)"))) ∧
    (0 < amount → mobileValid mobile = true →
      db.borrows.find? (fun b => b.id == borrowId && b.userId == userId) = none →
      (initTelebirrPayment db userId username amount borrowId mobile now txRef
          newPayId).1.borrows = db.borrows ∧
      (initTelebirrPayment db userId username amount borrowId mobile now txRef
          newPayId).1.books = db.books ∧
      (initTelebirrPayment db userId username amount borrowId mobile now txRef
          newPayId).1.payments
        = db.payments ++ [{
            id := newPayId, userId := userId, username := username,
            amount := amount, borrowId := borrowId, mobile := some mobile,
            tx_ref := txRef, method := "telebirr", status := "completed",
            createdAt := now, updatedAt := now }] ∧
      (initTelebirrPayment db userId username amount borrowId mobile now txRef
          newPayId).2 = .error ("Borrow record not found")) := by
  refine ⟨?_, ?_, ?_⟩
  · intro h
    unfold initTelebirrPayment
    rw [if_pos h]
  · intro ha hm
    unfold initTelebirrPayment
    rw [if_neg (by omega), if_pos (by simp [hm])]
  · intro ha hm hf
    unfold initTelebirrPayment
    rw [if_neg (by omega), if_neg (by simp [hm])]
    dsimp only
    rw [hf]
    exact ⟨rfl, rfl, rfl, rfl⟩

/-- Witness for C5 amended: the invalid-mobile rejection and the
borrow-not-found branch, both at concrete states with no loans. -/
theorem telebirr_failure_states_witness :
    initTelebirrPayment (dbNoBorrow 2) ("u1") ("alice") 10 1 ("12345")
        5 ("tx1") 1 = (dbNoBorrow 2, .error ("Invalid mobile (09.......)")) ∧
    (initTelebirrPayment (dbNoBorrow 2) ("u1") ("alice") 10 1 ("0912345678")
        5 ("tx1") 1).1.borrows = (dbNoBorrow 2).borrows ∧
    (initTelebirrPayment (dbNoBorrow 2) ("u1") ("alice") 10 1 ("0912345678")
        5 ("tx1") 1).2 = .error ("Borrow record not found") :=
  have hmob := (telebirr_failure_states (dbNoBorrow 2) ("u1") ("alice") 10 1
    ("12345") 5 ("tx1") 1).2.1 (by omega) (by decide)
  have h := (telebirr_failure_states (dbNoBorrow 2) ("u1") ("alice") 10 1
    ("0912345678") 5 ("tx1") 1).2.2 (by omega) (by decide) (by rfl)
  ⟨hmob, h.1, h.2.2.2⟩

/-- C6 counterexample: a request made at time 0 carries the form's
default due date `0 + 7 days`; approving it at time 3_600_000 sets
`borrowedAt = 3_600_000` but leaves `dueDate = 604_800_000`, which is
not `borrowedAt + 7 days`. -/
theorem approve_dueDate_counterexample :
    (approveRequest (createRequest (dbNoBorrow 1) reqData 0 1).1 1
        ("lib1") 3600000).1.borrows.map (fun b => (b.dueDate, b.borrowedAt))
      = [(604800000, some 3600000)] ∧
    (604800000 : Int) ≠ 3600000 + 7 * msPerDay := by
  decide

/-- C6 amended: the due date is fixed at request time — `createRequest`
stores the client-supplied value, whose frontend default is
`request time + 7 days` — and `approveRequest` never modifies any loan's
`dueDate`, so after an approval at a later instant the due date is not
`borrowedAt + 7 days`. -/
theorem dueDate_set_at_request_immutable (db : DB) (d : BorrowData)
    (reqNow : Int) (newId borrowId : Nat) (a : String) (now : Int) :
    (createRequest db d reqNow newId).2.dueDate = d.dueDate ∧
    defaultDueDate reqNow = reqNow + 7 * msPerDay ∧
    (approveRequest db borrowId a now).1.borrows.map (·.dueDate)
      = db.borrows.map (·.dueDate) := by
  refine ⟨rfl, rfl, ?_⟩
  unfold approveRequest
  dsimp only
  have hg : ∀ x : Borrow, ({ x with
      status := "borrowed", approvedBy := some a,
      approvedAt := some now, borrowedAt := some now } : Borrow).dueDate
      = x.dueDate := fun _x => rfl
  exact map_updateFirst hg db.borrows

/-- C7 counterexample: a student two days past due returns the book:
`returnBook` succeeds even though the fine is 10, and it freezes
`fine = 10` on the loan rather than 0. -/
theorem returnBook_fine_counterexample :
    (returnBook (sampleDB 0 0 ("student") ("borrowed")) ("u1") ("B1")
        (2 * msPerDay)).2
      = some { success := true, fine := 10, daysLate := 2, gracePeriod := 1 } ∧
    (returnBook (sampleDB 0 0 ("student") ("borrowed")) ("u1") ("B1")
        (2 * msPerDay)).1.borrows.map (fun b => (b.fine, b.status))
      = [(10, ("returned"))] ∧
    (10 : Int) ≠ 0 := by
  decide

/-- C7 amended: `returnBook` succeeds whenever a borrowed, unreturned
loan exists for the (user, book) pair, with no condition on the fine; it
computes the fine at `now`, freezes that value (possibly positive) on
the loan, and sets `returnedAt = now` and `status = returned`. -/
theorem returnBook_unconditional (db : DB) (userId bookId : String) (now : Int)
    (b : Borrow)
    (h : db.borrows.find? (fun x => x.userId == userId && x.bookId == bookId
        && x.status == "borrowed" && x.returnedAt.isNone) = some b) :
    (returnBook db userId bookId now).2
      = some { success := true, fine := calculateFine b.dueDate now b.userType,
               daysLate := ceilDiv (now - b.dueDate) msPerDay,
               gracePeriod := if b.userType == "teacher" then 2 else 1 } ∧
    (returnBook db userId bookId now).1.borrows
      = updateFirst (fun x => x.id == b.id)
          (fun x => { x with
              returnedAt := some now, fine := calculateFine b.dueDate now b.userType,
              status := "returned" }) db.borrows := by
  unfold returnBook
  rw [h]
  exact ⟨rfl, rfl⟩

/-- Witness for C7 amended: the student-two-days-late scenario. -/
theorem returnBook_unconditional_witness :
    (returnBook (sampleDB 0 0 ("student") ("borrowed")) ("u1") ("B1")
        (2 * msPerDay)).1.borrows.map (·.fine) = [10] := by
  have h := (returnBook_unconditional (sampleDB 0 0 ("student") ("borrowed"))
    ("u1") ("B1") (2 * msPerDay) (sampleBorrow 0 ("student") ("borrowed")) rfl).2
  rw [h]
  decide

/-- C8 counterexample: `approveRequest` on a loan whose status is already
`returned` still matches and silently overwrites it to `borrowed`, and
two successive approve calls on the same pending loan both report a
match — neither fails. -/
theorem approve_nonpending_counterexample :
    (approveRequest (sampleDB 0 0 ("student") ("returned")) 1 ("lib2") 99).2.matchedCount
      = 1 ∧
    (approveRequest (sampleDB 0 0 ("student") ("returned")) 1
        ("lib2") 99).1.borrows.map (·.status) = [("borrowed")] ∧
    (approveRequest (approveRequest (sampleDB 0 0 ("student") ("pending")) 1
        ("lib1") 1).1 1 ("lib2") 2).2.matchedCount = 1 ∧
    (approveRequest (approveRequest (sampleDB 0 0 ("student") ("pending")) 1
        ("lib1") 1).1 1 ("lib2") 2).1.borrows.map (·.approvedBy)
      = [some ("lib2")] := by
  decide

/-- C8 amended: the loan update of `approveRequest` is keyed on the loan
id alone, not on `status = pending`; the pending check
(`findPendingById`) is a separate prior read, so given a pending loan,
two approve calls in a row both succeed (`matchedCount = 1`) — the
second does not fail with a conflict. -/
theorem approveRequest_unconditional_write (db : DB) (borrowId : Nat)
    (a1 a2 : String) (n1 n2 : Int) (b : Borrow)
    (h : findPendingById db borrowId = some b) :
    (approveRequest db borrowId a1 n1).2.matchedCount = 1 ∧
    (approveRequest (approveRequest db borrowId a1 n1).1 borrowId
        a2 n2).2.matchedCount = 1 := by
  unfold findPendingById at h
  have hmem := List.mem_of_find?_eq_some h
  have hpred := List.find?_some h
  have hid : (b.id == borrowId) = true := by
    simp only [Bool.and_eq_true] at hpred
    exact hpred.1
  have hany : db.borrows.any (fun x => x.id == borrowId) = true :=
    List.any_eq_true.mpr ⟨b, hmem, hid⟩
  constructor
  · unfold approveRequest
    dsimp only
    rw [hany]
    rfl
  · unfold approveRequest
    dsimp only
    have hq : ∀ x : Borrow, (({ x with
        status := "borrowed", approvedBy := some a1,
        approvedAt := some n1, borrowedAt := some n1 } : Borrow).id == borrowId)
        = (x.id == borrowId) := fun _x => rfl
    rw [any_updateFirst hq db.borrows, hany]
    rfl

/-- Witness for C8 amended: two approve calls on the pending sample
loan. -/
theorem approveRequest_unconditional_write_witness :
    (approveRequest (sampleDB 0 0 ("student") ("pending")) 1 ("lib1") 1).2.matchedCount
      = 1 ∧
    (approveRequest (approveRequest (sampleDB 0 0 ("student") ("pending")) 1
        ("lib1") 1).1 1 ("lib2") 2).2.matchedCount = 1 :=
  approveRequest_unconditional_write (sampleDB 0 0 ("student") ("pending")) 1
    ("lib1") ("lib2") 1 2 (sampleBorrow 0 ("student") ("pending")) rfl

/-- C9 counterexample: decrementing a book that has 0 copies succeeds and
drives the counter to −1. -/
theorem updateCopies_negative_counterexample :
    bookCopies (updateCopies (dbNoBorrow 0) ("B1") (-1) 5).1 ("B1") = some (-1) ∧
    (updateCopies (dbNoBorrow 0) ("B1") (-1) 5).2.matchedCount = 1 ∧
    ¬ ((0 : Int) ≤ -1) := by
  decide

/-- C9 amended: `updateCopies` is an unconditional `$inc` keyed on the
book id with no `copies > 0` guard — from any count `c` it stores
`c + delta`, negative or not — and the availability test
(`hasAvailableCopies`) is a separate read, so the pair is a
read-then-write, not an atomic check-and-decrement. -/
theorem updateCopies_unguarded (c delta now : Int) :
    bookCopies (updateCopies (dbNoBorrow c) ("B1") delta now).1 ("B1")
      = some (c + delta) ∧
    (updateCopies (dbNoBorrow c) ("B1") delta now).2.matchedCount = 1 ∧
    hasAvailableCopies (dbNoBorrow c) ("B1") = decide (0 < c) :=
  ⟨rfl, rfl, rfl⟩

/-- C10 counterexample: a loan returned one hour before its due date
reports `fine = 0` and `daysLate = 0` — not a strictly negative
`daysLate`. -/
theorem daysLate_not_negative_counterexample :
    (returnBook (sampleDB 1 msPerDay ("student") ("borrowed")) ("u1") ("B1")
        (msPerDay - 3600000)).2
      = some { success := true, fine := 0, daysLate := 0, gracePeriod := 1 } ∧
    ¬ ((0 : Int) < 0) := by
  decide

/-- C10 amended: an early return reports `fine = 0` together with
`daysLate = ceil((now − dueDate) / 1 day)`, which is not floored at
zero: it is at most 0, and strictly negative exactly when the return is
at least one full day early. -/
theorem returnBook_early_daysLate (db : DB) (userId bookId : String) (now : Int)
    (b : Borrow)
    (h : db.borrows.find? (fun x => x.userId == userId && x.bookId == bookId
        && x.status == "borrowed" && x.returnedAt.isNone) = some b)
    (hearly : now < b.dueDate) :
    (returnBook db userId bookId now).2
      = some { success := true, fine := 0,
               daysLate := ceilDiv (now - b.dueDate) msPerDay,
               gracePeriod := if b.userType == "teacher" then 2 else 1 } ∧
    ceilDiv (now - b.dueDate) msPerDay ≤ 0 ∧
    (msPerDay ≤ b.dueDate - now → ceilDiv (now - b.dueDate) msPerDay ≤ -1) := by
  refine ⟨?_, ceilDiv_nonpos_of_nonpos (by omega),
    fun hd => ceilDiv_le_neg_one (by omega)⟩
  unfold returnBook
  rw [h]
  dsimp only
  rw [calculateFine_early b.dueDate now b.userType (le_of_lt hearly)]

/-- Witness for C10 amended: a return two full days early. -/
theorem returnBook_early_daysLate_witness :
    (returnBook (sampleDB 1 (2 * msPerDay) ("student") ("borrowed")) ("u1") ("B1")
        0).2
      = some { success := true, fine := 0, daysLate := -2, gracePeriod := 1 } := by
  have h := (returnBook_early_daysLate (sampleDB 1 (2 * msPerDay) ("student")
    ("borrowed")) ("u1") ("B1") 0 (sampleBorrow (2 * msPerDay) ("student")
    ("borrowed")) rfl (by decide)).1
  rw [h]
  decide

end Library
